import Mathlib

/-!
Verification of the `wdc` WebDriver client library.

This file contains a shallow embedding of the parts of the source that the
verified properties speak about, together with theorems settling those
properties:

* the RFC6455 WebSocket message framer (`src/wsp.rs`),
* the capability negotiation model (`src/wdcmd/session/gec.rs`,
  `src/wdcmd/session/comm.rs`),
* the driver-command failure decoder and client destructor
  (`src/genericdrv.rs`),
* the hand-rolled HTTP/1.1 response parser and header finders
  (`src/httpp.rs`).

Bytes are modelled as `Nat` values (the source only ever compares and copies
them); byte buffers are `List Nat`.  Functions that can fail return `Except`
or a dedicated outcome type; a Rust panic (`unwrap`, `expect`,
out-of-bounds slicing, explicit `panic!`) is modelled by a distinguished
`panic` outcome.
-/

namespace Wdc

instance {ε α : Type} [DecidableEq ε] [DecidableEq α] : DecidableEq (Except ε α) := fun
  | .ok a, .ok b =>
    match decEq a b with
    | .isTrue h => .isTrue (h ▸ rfl)
    | .isFalse h => .isFalse fun hc => h (Except.ok.inj hc)
  | .ok _, .error _ => .isFalse fun hc => Except.noConfusion hc
  | .error _, .ok _ => .isFalse fun hc => Except.noConfusion hc
  | .error e, .error f =>
    match decEq e f with
    | .isTrue h => .isTrue (h ▸ rfl)
    | .isFalse h => .isFalse fun hc => h (Except.error.inj hc)

/-- Convert an ASCII string literal to its byte list, for transcribing the
byte-string literals (`b"..."`) of the source. -/
def strBytes (s : String) : List Nat :=
  s.data.map Char.toNat

-- ======================================================================== --
-- WebSocket codec, from src/wsp.rs                                         --
-- ======================================================================== --

/-- `WspSett` from src/wsp.rs (lines 21-28). -/
inductive WspSett where
  | Mask
  | Ping
  | Pong
  | TextMsg
  | BinaryMsg
  | MaxFrameLen (n : Nat)
  deriving DecidableEq, Repr

/-- `WspError` from src/wsp.rs (lines 31-39). -/
inductive WspError where
  | Buggy
  | InvalidMaxFrameLen
  | InvalidDataLen
  | InsufficientSize
  | SizeKindNotFound
  | HandshakeFail1
  | HandshakeFail2
  deriving DecidableEq, Repr

/-- `SizeKind` from src/wsp.rs (lines 366-370). -/
inductive SizeKind where
  | S
  | M
  | L
  deriving DecidableEq, Repr

/-- `WebSocketFrame` from src/wsp.rs (lines 356-363).  `ops` is the u8
opcode/FIN byte, `plen` the declared u64 payload length, `mkey` the optional
u32 mask key; the payload is always stored unmasked. -/
structure WebSocketFrame where
  size_kind : SizeKind
  ops : Nat
  plen : Nat
  mkey : Option Nat
  payload : List Nat
  deriving DecidableEq, Repr

/-- `WebSocketMessage` from src/wsp.rs (lines 91-94): the three allowed
size-class flags (S, M, L) and the ordered frame list. -/
structure WebSocketMessage where
  size_kinds : Bool × Bool × Bool
  frames : List WebSocketFrame
  deriving DecidableEq, Repr

namespace WebSocketFrame

/-- `WebSocketFrame::with_size_kinds` (src/wsp.rs lines 385-434): choose the
smallest allowed size class that fits `actual_flen`. -/
def with_size_kinds (kinds : Bool × Bool × Bool) (actual_flen : Nat) :
    Except WspError WebSocketFrame :=
  let allow_s := kinds.1
  let allow_m := kinds.2.1
  let allow_l := kinds.2.2
  let newone : WebSocketFrame :=
    { ops := 0, size_kind := .S, plen := 0, mkey := none, payload := [] }
  if actual_flen ≤ 125 then
    if allow_s then .ok { newone with size_kind := .S }
    else if allow_m then .ok { newone with size_kind := .M }
    else if allow_l then .ok { newone with size_kind := .L }
    else .error .SizeKindNotFound
  else if actual_flen ≤ 65535 then
    if allow_m then .ok { newone with size_kind := .M }
    else if allow_l then .ok { newone with size_kind := .L }
    else .error .SizeKindNotFound
  else if actual_flen ≤ 2 ^ 64 - 1 then
    if allow_l then .ok { newone with size_kind := .L }
    else .error .SizeKindNotFound
  else .error .Buggy

/-- `set_fin` (src/wsp.rs lines 436-439): `ops |= 0b10000000`. -/
def set_fin (f : WebSocketFrame) : WebSocketFrame :=
  { f with ops := f.ops ||| 128 }

/-- `set_ping` (src/wsp.rs lines 446-450). -/
def set_ping (f : WebSocketFrame) : WebSocketFrame :=
  { f with ops := (f.ops &&& 240) ||| 9 }

/-- `set_pong` (src/wsp.rs lines 452-456). -/
def set_pong (f : WebSocketFrame) : WebSocketFrame :=
  { f with ops := (f.ops &&& 240) ||| 10 }

/-- `set_text_frame` (src/wsp.rs lines 458-462). -/
def set_text_frame (f : WebSocketFrame) : WebSocketFrame :=
  { f with ops := (f.ops &&& 240) ||| 1 }

/-- `set_binary_frame` (src/wsp.rs lines 464-468). -/
def set_binary_frame (f : WebSocketFrame) : WebSocketFrame :=
  { f with ops := (f.ops &&& 240) ||| 2 }

/-- `set_mask` (src/wsp.rs lines 474-479): the fixed mask key 0x37fa213d. -/
def set_mask (f : WebSocketFrame) : WebSocketFrame :=
  { f with mkey := some 0x37fa213d }

/-- `set_plen` (src/wsp.rs lines 481-499). -/
def set_plen (f : WebSocketFrame) (len : Nat) :
    Except WspError WebSocketFrame :=
  match f.size_kind with
  | .S => if len > 125 then .error .InsufficientSize else .ok { f with plen := len }
  | .M => if len > 65535 then .error .InsufficientSize else .ok { f with plen := len }
  | .L => .ok { f with plen := len }

/-- `set_payload` (src/wsp.rs lines 501-520). -/
def set_payload (f : WebSocketFrame) (bytes : List Nat) :
    Except WspError WebSocketFrame :=
  match f.size_kind with
  | .S => if bytes.length > 125 then .error .InsufficientSize
          else .ok { f with payload := f.payload ++ bytes }
  | .M => if bytes.length > 65535 then .error .InsufficientSize
          else .ok { f with payload := f.payload ++ bytes }
  | .L => .ok { f with payload := f.payload ++ bytes }

end WebSocketFrame

namespace WebSocketMessage

/-- `get_default_max_flen` (src/wsp.rs lines 128-143): the cap of the
smallest allowed class, or 0 when no class is allowed. -/
def get_default_max_flen (m : WebSocketMessage) : Nat :=
  if m.size_kinds.1 then 125
  else if m.size_kinds.2.1 then 65535
  else if m.size_kinds.2.2 then 2 ^ 64 - 1
  else 0

/-- `get_message_data` (src/wsp.rs lines 145-167): validate each frame's
declared length against its size class, then concatenate the payloads. -/
def get_message_data_go : List WebSocketFrame → Except WspError (List Nat)
  | [] => .ok []
  | f :: fs =>
    match f.size_kind with
    | .S =>
      if f.plen > 125 then .error .InvalidDataLen
      else (get_message_data_go fs).map (f.payload ++ ·)
    | .M =>
      if f.plen > 65535 then .error .InvalidDataLen
      else (get_message_data_go fs).map (f.payload ++ ·)
    | .L => (get_message_data_go fs).map (f.payload ++ ·)

/-- `get_message_data` entry point. -/
def get_message_data (m : WebSocketMessage) : Except WspError (List Nat) :=
  get_message_data_go m.frames

/-- The `while framed_len != total_len` loop of `set_message_data`
(src/wsp.rs lines 215-261), with the remaining payload as `rest` and the
running offset `starti` (`curf_starti == 0` identifies the first frame).
The source loop always consumes at least one byte per iteration (because
`max_flen > 0` is checked before the loop); `fuel` is any upper bound on
the number of iterations, and the caller passes the total payload length.
On an error, frames already pushed by earlier iterations are kept, as in
the source (the `frames` vector is mutated in place). -/
def frameLoop (kinds : Bool × Bool × Bool) (max_flen : Nat)
    (is_text_msg is_ping is_pong need_mask : Bool) :
    Nat → List Nat → Nat → List WebSocketFrame × Option WspError
  | 0, rest, _ =>
    -- unreachable with fuel ≥ rest.length and max_flen > 0
    if rest = [] then ([], none) else ([], some .Buggy)
  | fuel + 1, rest, starti =>
    if rest = [] then ([], none)
    else
      let rest_len := rest.length
      let actual_flen := if rest_len > max_flen then max_flen else rest_len
      match WebSocketFrame.with_size_kinds kinds actual_flen with
      | .error e => ([], some e)
      | .ok f =>
        let f :=
          if starti = 0 then
            let f := if is_text_msg then f.set_text_frame else f.set_binary_frame
            let f := if is_ping then f.set_ping else f
            if is_pong then f.set_pong else f
          else f
        match f.set_payload (rest.take actual_flen) with
        | .error e => ([], some e)
        | .ok f =>
          let f := if need_mask then f.set_mask else f
          match f.set_plen actual_flen with
          | .error e => ([], some e)
          | .ok f =>
            let f := if rest.drop actual_flen = [] then f.set_fin else f
            let (fs, err) :=
              frameLoop kinds max_flen is_text_msg is_ping is_pong need_mask
                fuel (rest.drop actual_flen) (starti + actual_flen)
            (f :: fs, err)

/-- Fold the `WspSett` list exactly as the `for sett in setts` loop of
`set_message_data` (src/wsp.rs lines 184-205); the accumulator is
`(is_text_msg, max_flen, need_mask, is_ping, is_pong)`. -/
def applySetts (st : Bool × Nat × Bool × Bool × Bool) :
    List WspSett → Bool × Nat × Bool × Bool × Bool
  | [] => st
  | sett :: rest =>
    let st' :=
      match sett with
      | .TextMsg => (true, st.2.1, st.2.2.1, st.2.2.2.1, st.2.2.2.2)
      | .BinaryMsg => (false, st.2.1, st.2.2.1, st.2.2.2.1, st.2.2.2.2)
      | .Ping => (st.1, st.2.1, st.2.2.1, true, st.2.2.2.2)
      | .Pong => (st.1, st.2.1, st.2.2.1, st.2.2.2.1, true)
      | .Mask => (st.1, st.2.1, true, st.2.2.2.1, st.2.2.2.2)
      | .MaxFrameLen ml => (st.1, ml, st.2.2.1, st.2.2.2.1, st.2.2.2.2)
    applySetts st' rest

/-- `set_message_data` (src/wsp.rs lines 170-264).  Returns the updated
message together with the error, if any, of the framing loop. -/
def set_message_data (m : WebSocketMessage) (bin_data : List Nat)
    (setts : List WspSett) : WebSocketMessage × Option WspError :=
  let total_len := bin_data.length
  let st := applySetts (false, m.get_default_max_flen, false, false, false) setts
  let (is_text_msg, max_flen, need_mask, is_ping, is_pong) := st
  if max_flen = 0 then (m, some .InvalidMaxFrameLen)
  else if total_len = 0 then (m, some .InvalidDataLen)
  else
    let (fs, err) :=
      frameLoop m.size_kinds max_flen is_text_msg is_ping is_pong need_mask
        total_len bin_data 0
    ({ m with frames := m.frames ++ fs }, err)

end WebSocketMessage

/-- The payload-length cap of a size class (125, u16::MAX, u64::MAX). -/
def capOf : SizeKind → Nat
  | .S => 125
  | .M => 65535
  | .L => 2 ^ 64 - 1

/-- The cap of the *largest* allowed size class (0 when none is allowed).
A max frame length within this cap guarantees that
`WebSocketFrame::with_size_kinds` finds a class for every frame. -/
def allowedCap (kinds : Bool × Bool × Bool) : Nat :=
  if kinds.2.2 then 2 ^ 64 - 1
  else if kinds.2.1 then 65535
  else if kinds.1 then 125
  else 0

/-- The per-frame validity check performed by `get_message_data`
(src/wsp.rs lines 148-161): the declared length fits the size class. -/
def frameLenOk (f : WebSocketFrame) : Prop :=
  (f.size_kind = .S → f.plen ≤ 125) ∧ (f.size_kind = .M → f.plen ≤ 65535)

-- ======================================================================== --
-- Capability model, from src/wdcmd/session/comm.rs and gec.rs             --
-- ======================================================================== --

/-- `Proxy` from src/wdcmd/session/comm.rs (lines 17-26).  The string
fields default to the empty string, `no_proxy` to the empty list and
`socks_version` (u8) to 0. -/
structure Proxy where
  proxy_type : String := ""
  proxy_autoconfig_url : String := ""
  ftp_proxy : String := ""
  http_proxy : String := ""
  no_proxy : List String := []
  ssl_proxy : String := ""
  socks_proxy : String := ""
  socks_version : Nat := 0
  deriving DecidableEq, Repr

/-- `Timeouts` from src/wdcmd/session/comm.rs (lines 29-34), with the
`Default` impl of lines 507-515: `{script: 30_000, page_load: 300_000,
implicit: 0}` (u32 milliseconds). -/
structure Timeouts where
  script : Nat := 30000
  page_load : Nat := 300000
  implicit : Nat := 0
  deriving DecidableEq, Repr

/-- `FirefoxSesExtCap` from src/wdcmd/session/gec.rs (lines 83-89): the
`moz:firefoxOptions` extension block.  Prefs are modelled as an
association list (the source uses a `BTreeMap`). -/
structure FirefoxSesExtCap where
  binary : Option String := none
  args : Option (List String) := none
  profile : Option String := none
  prefs : Option (List (String × String)) := none
  deriving DecidableEq, Repr

/-- `FirefoxCapa = CommCapa<FirefoxSesExtCap, FirefoxSesAddCap>`
(src/wdcmd/session/gec.rs line 98, src/wdcmd/session/comm.rs lines 43-64):
the W3C-standard capability fields plus the Firefox extension block.  The
empty `add`/`alien` compartments are omitted. -/
structure FirefoxCapa where
  browser_name : Option String := none
  browser_version : Option String := none
  platform_name : Option String := none
  accept_insecure_certs : Option Bool := none
  page_load_strategy : Option String := none
  proxy : Option Proxy := none
  window_rect : Option Bool := none
  timeouts : Option Timeouts := none
  strict_file_interactability : Option Bool := none
  unhandled_prompt_behavior : Option String := none
  wsurl : Option String := none
  ext : FirefoxSesExtCap := {}
  deriving DecidableEq, Repr

namespace FirefoxCapa

-- W3C getters, from the `W3cCapaGetter` impl for `CommCapa`
-- (src/wdcmd/session/comm.rs lines 66-203).  The proxy/timeouts getters
-- return `some` whenever the sub-record is present, exposing the stored
-- (possibly empty/default) field value.

def browser_name? (c : FirefoxCapa) : Option String := c.browser_name
def browser_version? (c : FirefoxCapa) : Option String := c.browser_version
def platform_name? (c : FirefoxCapa) : Option String := c.platform_name
def accept_insecure_certs? (c : FirefoxCapa) : Option Bool := c.accept_insecure_certs
def page_load_strategy? (c : FirefoxCapa) : Option String := c.page_load_strategy
def proxy_type? (c : FirefoxCapa) : Option String := c.proxy.map Proxy.proxy_type
def proxy_autoconfig_url? (c : FirefoxCapa) : Option String :=
  c.proxy.map Proxy.proxy_autoconfig_url
def ftp_proxy? (c : FirefoxCapa) : Option String := c.proxy.map Proxy.ftp_proxy
def http_proxy? (c : FirefoxCapa) : Option String := c.proxy.map Proxy.http_proxy
def no_proxy? (c : FirefoxCapa) : Option (List String) := c.proxy.map Proxy.no_proxy
def ssl_proxy? (c : FirefoxCapa) : Option String := c.proxy.map Proxy.ssl_proxy
def socks_proxy? (c : FirefoxCapa) : Option String := c.proxy.map Proxy.socks_proxy
def socks_version? (c : FirefoxCapa) : Option Nat := c.proxy.map Proxy.socks_version
def window_rect? (c : FirefoxCapa) : Option Bool := c.window_rect
def timeouts_script? (c : FirefoxCapa) : Option Nat := c.timeouts.map Timeouts.script
def timeouts_page_load? (c : FirefoxCapa) : Option Nat := c.timeouts.map Timeouts.page_load
def timeouts_implicit? (c : FirefoxCapa) : Option Nat := c.timeouts.map Timeouts.implicit
def strict_file_interactability? (c : FirefoxCapa) : Option Bool :=
  c.strict_file_interactability
def unhandled_prompt_behavior? (c : FirefoxCapa) : Option String :=
  c.unhandled_prompt_behavior
def wsurl? (c : FirefoxCapa) : Option String := c.wsurl

-- Firefox-specific getters, from the `FirefoxCapaGetter` impl
-- (src/wdcmd/session/gec.rs lines 294-333): they read the `ext` block.

def binary? (c : FirefoxCapa) : Option String := c.ext.binary
def args? (c : FirefoxCapa) : Option (List String) := c.ext.args
def profile? (c : FirefoxCapa) : Option String := c.ext.profile
def prefs? (c : FirefoxCapa) : Option (List (String × String)) := c.ext.prefs

-- W3C setters, from the `W3cCapaSetter` impl for `CommCapa`
-- (src/wdcmd/session/comm.rs lines 205-450).  A proxy/timeouts field
-- setter creates the sub-record with `Default` values when absent.

def set_browser_name (c : FirefoxCapa) (arg : String) : FirefoxCapa :=
  { c with browser_name := some arg }
def set_browser_version (c : FirefoxCapa) (arg : String) : FirefoxCapa :=
  { c with browser_version := some arg }
def set_platform_name (c : FirefoxCapa) (arg : String) : FirefoxCapa :=
  { c with platform_name := some arg }
def set_accept_insecure_certs (c : FirefoxCapa) (arg : Bool) : FirefoxCapa :=
  { c with accept_insecure_certs := some arg }
def set_page_load_strategy (c : FirefoxCapa) (arg : String) : FirefoxCapa :=
  { c with page_load_strategy := some arg }
def set_proxy_type (c : FirefoxCapa) (arg : String) : FirefoxCapa :=
  match c.proxy with
  | none => { c with proxy := some { proxy_type := arg } }
  | some v => { c with proxy := some { v with proxy_type := arg } }
def set_proxy_autoconfig_url (c : FirefoxCapa) (arg : String) : FirefoxCapa :=
  match c.proxy with
  | none => { c with proxy := some { proxy_autoconfig_url := arg } }
  | some v => { c with proxy := some { v with proxy_autoconfig_url := arg } }
def set_ftp_proxy (c : FirefoxCapa) (arg : String) : FirefoxCapa :=
  match c.proxy with
  | none => { c with proxy := some { ftp_proxy := arg } }
  | some v => { c with proxy := some { v with ftp_proxy := arg } }
def set_http_proxy (c : FirefoxCapa) (arg : String) : FirefoxCapa :=
  match c.proxy with
  | none => { c with proxy := some { http_proxy := arg } }
  | some v => { c with proxy := some { v with http_proxy := arg } }
def set_no_proxy (c : FirefoxCapa) (arg : List String) : FirefoxCapa :=
  match c.proxy with
  | none => { c with proxy := some { no_proxy := arg } }
  | some v => { c with proxy := some { v with no_proxy := arg } }
def set_ssl_proxy (c : FirefoxCapa) (arg : String) : FirefoxCapa :=
  match c.proxy with
  | none => { c with proxy := some { ssl_proxy := arg } }
  | some v => { c with proxy := some { v with ssl_proxy := arg } }
def set_socks_proxy (c : FirefoxCapa) (arg : String) : FirefoxCapa :=
  match c.proxy with
  | none => { c with proxy := some { socks_proxy := arg } }
  | some v => { c with proxy := some { v with socks_proxy := arg } }
def set_socks_version (c : FirefoxCapa) (arg : Nat) : FirefoxCapa :=
  match c.proxy with
  | none => { c with proxy := some { socks_version := arg } }
  | some v => { c with proxy := some { v with socks_version := arg } }
def set_window_rect (c : FirefoxCapa) (arg : Bool) : FirefoxCapa :=
  { c with window_rect := some arg }
def set_timeouts_script (c : FirefoxCapa) (arg : Nat) : FirefoxCapa :=
  match c.timeouts with
  | none => { c with timeouts := some { script := arg } }
  | some v => { c with timeouts := some { v with script := arg } }
def set_timeouts_page_load (c : FirefoxCapa) (arg : Nat) : FirefoxCapa :=
  match c.timeouts with
  | none => { c with timeouts := some { page_load := arg } }
  | some v => { c with timeouts := some { v with page_load := arg } }
def set_timeouts_implicit (c : FirefoxCapa) (arg : Nat) : FirefoxCapa :=
  match c.timeouts with
  | none => { c with timeouts := some { implicit := arg } }
  | some v => { c with timeouts := some { v with implicit := arg } }
def set_strict_file_interactability (c : FirefoxCapa) (arg : Bool) : FirefoxCapa :=
  { c with strict_file_interactability := some arg }
def set_unhandled_prompt_behavior (c : FirefoxCapa) (arg : String) : FirefoxCapa :=
  { c with unhandled_prompt_behavior := some arg }
def set_wsurl (c : FirefoxCapa) (arg : String) : FirefoxCapa :=
  { c with wsurl := some arg }

-- Firefox-specific setters, from the `FirefoxCapaSetter` impl
-- (src/wdcmd/session/gec.rs lines 335-377).

def set_binary (c : FirefoxCapa) (arg : String) : FirefoxCapa :=
  { c with ext := { c.ext with binary := some arg } }
def set_args (c : FirefoxCapa) (arg : List String) : FirefoxCapa :=
  { c with ext := { c.ext with args := some arg } }
/-- `set_profile` (src/wdcmd/session/gec.rs lines 352-354).  NB the source
assigns `self.ext.binary = Some(Cow::from(arg))` — the value goes into the
`binary` field, not `profile`. -/
def set_profile (c : FirefoxCapa) (arg : String) : FirefoxCapa :=
  { c with ext := { c.ext with binary := some arg } }
/-- `set_profile_take` (src/wdcmd/session/gec.rs lines 355-357); same body
as `set_profile`. -/
def set_profile_take (c : FirefoxCapa) (arg : String) : FirefoxCapa :=
  { c with ext := { c.ext with binary := some arg } }
def set_prefs (c : FirefoxCapa) (arg : List (String × String)) : FirefoxCapa :=
  { c with ext := { c.ext with prefs := some arg } }

/-- Helper modelling the `if let Some(v) = other.f() { newme.set_f(v); }`
pattern of `from_other`: apply the setter when the getter is `some`. -/
def applyOpt {α : Type} (c : FirefoxCapa) (o : Option α)
    (f : FirefoxCapa → α → FirefoxCapa) : FirefoxCapa :=
  match o with
  | some v => f c v
  | none => c

/-- `FirefoxCapa::from_other` (src/wdcmd/session/gec.rs lines 174-255):
copy every present W3C field, then the present Firefox fields, in source
order, onto a default record. -/
def from_other (other : FirefoxCapa) : FirefoxCapa :=
  (({} : FirefoxCapa).applyOpt
      other.browser_name? set_browser_name).applyOpt
      (other.browser_version?) set_browser_version |>.applyOpt
      (other.platform_name?) set_platform_name |>.applyOpt
      (other.accept_insecure_certs?) set_accept_insecure_certs |>.applyOpt
      (other.page_load_strategy?) set_page_load_strategy |>.applyOpt
      (other.proxy_type?) set_proxy_type |>.applyOpt
      (other.proxy_autoconfig_url?) set_proxy_autoconfig_url |>.applyOpt
      (other.ftp_proxy?) set_ftp_proxy |>.applyOpt
      (other.http_proxy?) set_http_proxy |>.applyOpt
      (other.no_proxy?) set_no_proxy |>.applyOpt
      (other.ssl_proxy?) set_ssl_proxy |>.applyOpt
      (other.socks_proxy?) set_socks_proxy |>.applyOpt
      (other.socks_version?) set_socks_version |>.applyOpt
      (other.window_rect?) set_window_rect |>.applyOpt
      (other.timeouts_script?) set_timeouts_script |>.applyOpt
      (other.timeouts_page_load?) set_timeouts_page_load |>.applyOpt
      (other.timeouts_implicit?) set_timeouts_implicit |>.applyOpt
      (other.strict_file_interactability?) set_strict_file_interactability |>.applyOpt
      (other.unhandled_prompt_behavior?) set_unhandled_prompt_behavior |>.applyOpt
      (other.wsurl?) set_wsurl |>.applyOpt
      (other.binary?) set_binary |>.applyOpt
      (other.args?) set_args |>.applyOpt
      (other.profile?) set_profile |>.applyOpt
      (other.prefs?) set_prefs

/-- `FirefoxCapa::is_conflict_with` (src/wdcmd/session/gec.rs lines
257-276): two records conflict when both specify a value for any of the
listed fields. -/
def is_conflict_with (c other : FirefoxCapa) : Bool :=
  (c.browser_name?.isSome && other.browser_name?.isSome)
    || (c.browser_version?.isSome && other.browser_version?.isSome)
    || (c.platform_name?.isSome && other.platform_name?.isSome)
    || (c.accept_insecure_certs?.isSome && other.accept_insecure_certs?.isSome)
    || (c.page_load_strategy?.isSome && other.page_load_strategy?.isSome)
    || (c.proxy_type?.isSome && other.proxy_type?.isSome)
    || (c.window_rect?.isSome && other.window_rect?.isSome)
    || (c.timeouts_script?.isSome && other.timeouts_script?.isSome)
    || (c.strict_file_interactability?.isSome && other.strict_file_interactability?.isSome)
    || (c.unhandled_prompt_behavior?.isSome && other.unhandled_prompt_behavior?.isSome)
    || (c.binary?.isSome && other.binary?.isSome)
    || (c.args?.isSome && other.args?.isSome)
    || (c.profile?.isSome && other.profile?.isSome)

end FirefoxCapa

/-- `GeckoCapRequ = CommCapRequ<FirefoxCapa>` (src/wdcmd/session/gec.rs
line 383, src/wdcmd/session/comm.rs lines 458-465). -/
structure GeckoCapRequ where
  always_match : FirefoxCapa := {}
  first_match : List FirefoxCapa := []
  deriving DecidableEq, Repr

namespace GeckoCapRequ

/-- `GeckoCapRequSetter::mandate` (src/wdcmd/session/gec.rs lines 413-420):
replace `always_match` with a copy of `other` and retain only the
non-conflicting `first_match` entries. -/
def mandate (requ : GeckoCapRequ) (other : FirefoxCapa) : GeckoCapRequ :=
  let newone := FirefoxCapa.from_other other
  { always_match := newone
    first_match := requ.first_match.filter fun x => !(newone.is_conflict_with x) }

/-- `GeckoCapRequSetter::allow` (src/wdcmd/session/gec.rs lines 422-431):
push a copy of `other` onto `first_match` unless it conflicts with
`always_match`. -/
def allow (requ : GeckoCapRequ) (other : FirefoxCapa) : GeckoCapRequ :=
  if !(requ.always_match.is_conflict_with other) then
    { requ with first_match := requ.first_match ++ [FirefoxCapa.from_other other] }
  else requ

end GeckoCapRequ

-- ======================================================================== --
-- Driver-command failure decoding, from src/genericdrv.rs                 --
-- ======================================================================== --

/-- `WdcError` from src/lib.rs (lines 157-179). -/
inductive WdcError where
  | Buggy
  | BusyCreateSession
  | DriverNotReadyBusySession
  | NotReadyForNewSession
  | UnsupportedOperation
  | WebDriverNotReady
  | WebDriverRemoteConnectionFailed
  | BadDrvCmd (error : String) (message : String)
  deriving DecidableEq, Repr

/-- `BadCmdResp`/`BadCmdRespDetail` from src/wdcmd/err.rs (lines 22-41),
flattened: the `error` and `message` fields of the `value` object (the
optional `stacktrace` field is behind a disabled feature). -/
structure BadCmdResp where
  error : String
  message : String
  deriving DecidableEq, Repr

/-- `check_fail_drvcmd` (src/genericdrv.rs lines 37-54).  The argument is
the outcome of deserializing the response body as `BadCmdResp`
(`serde_json::from_slice`); a parse failure yields `Buggy`. -/
def check_fail_drvcmd (parsed : Except Unit BadCmdResp) : WdcError :=
  match parsed with
  | .ok eobj =>
    if eobj.error == "session not created" && eobj.message == "Session is already started" then
      .BusyCreateSession
    else
      .BadDrvCmd eobj.error eobj.message
  | .error _ => .Buggy

-- ======================================================================== --
-- Client destruction, from src/genericdrv.rs (impl Drop)                  --
-- ======================================================================== --

/-- Outcome of running the `Drop` impl of `WebDrvClient`
(src/genericdrv.rs lines 121-132).  `finished` carries the ids for which a
`DELETE /session/{id}` was issued and the final session list; `panicked`
carries the ids already deleted when the panic fired (either the
`.expect("delete driver session")` on a deletion error, or the
out-of-bounds `self.ssids[i]` index). -/
inductive DropOutcome where
  | finished (issued : List String) (ssids : List String)
  | panicked (issued : List String)
  deriving DecidableEq, Repr

/-- The `for i in 0..self.ssids.len()` body of `drop` (src/genericdrv.rs
lines 126-130).  The range bound is evaluated once, before any removal;
`del` gives the result of `del_session` for an id.  `remaining` counts the
iterations left (`len - i`). -/
def dropLoop (del : String → Except WdcError Unit) :
    Nat → Nat → List String → List String → DropOutcome
  | 0, _, issued, cur => .finished issued cur
  | remaining + 1, i, issued, cur =>
    match cur.get? i with
    | none => .panicked issued  -- self.ssids[i] out of bounds
    | some ssid =>
      match del ssid with
      | .error _ => .panicked (issued ++ [ssid])  -- .expect(...) panics
      | .ok _ => dropLoop del remaining (i + 1) (issued ++ [ssid]) (cur.eraseIdx i)

/-- `<WebDrvClient as Drop>::drop` (src/genericdrv.rs lines 125-131). -/
def webDrvClientDrop (del : String → Except WdcError Unit)
    (ssids : List String) : DropOutcome :=
  dropLoop del ssids.length 0 [] ssids

-- ======================================================================== --
-- Proxy deserialization, from src/wdcmd/session/comm.rs (deser_proxyref)  --
-- ======================================================================== --

/-- A JSON value as seen by the proxy field visitors: `map.next_value()`
is called at type `&str`, `Vec<&str>` or `u8`. -/
inductive PVal where
  | str (s : String)
  | strList (l : List String)
  | num (n : Nat)
  deriving DecidableEq, Repr

/-- A serde deserialization error, as produced by the visitors. -/
inductive DeErr where
  | duplicateField (name : String)
  | invalidType
  deriving DecidableEq, Repr

/-- `map.next_value::<&str>()`. -/
def PVal.asStr : PVal → Except DeErr String
  | .str s => .ok s
  | _ => .error .invalidType

/-- `map.next_value::<Vec<&str>>()`. -/
def PVal.asStrList : PVal → Except DeErr (List String)
  | .strList l => .ok l
  | _ => .error .invalidType

/-- `map.next_value::<u8>()`. -/
def PVal.asU8 : PVal → Except DeErr Nat
  | .num n => if n ≤ 255 then .ok n else .error .invalidType
  | _ => .error .invalidType

/-- Accumulator of `deser_proxyref::StructVisitor::visit_map`
(src/wdcmd/session/comm.rs lines 688-697): one `Option` per known field
plus the pending duplicate error. -/
structure ProxyVisitState where
  ptype : Option String := none
  pauto : Option String := none
  ftpp : Option String := none
  httpp : Option String := none
  npxy : Option (List String) := none
  sslp : Option String := none
  socksp : Option String := none
  socksv : Option Nat := none
  is_dup : Option DeErr := none
  deriving DecidableEq, Repr

/-- The `while let Some(key) = map.next_key()?` loop of
`deser_proxyref::StructVisitor::visit_map` (src/wdcmd/session/comm.rs
lines 699-738), transcribed branch by branch.  NB in the source the
duplicate guards of the `HttpProxy`, `SslProxy`, `SocksProxy` and
`SocksVersion` arms all match on `npxy` (the `noProxy` accumulator), not
on their own accumulator; unknown keys skip their value. -/
def proxyVisitLoop (st : ProxyVisitState) :
    List (String × PVal) → Except DeErr ProxyVisitState
  | [] => .ok st
  | (key, v) :: rest =>
    if key = "proxyType" then
      match st.ptype with
      | none => do proxyVisitLoop { st with ptype := some (← v.asStr) } rest
      | some _ =>
        proxyVisitLoop { st with is_dup := some (.duplicateField "proxyType") } rest
    else if key = "proxyAutoconfigUrl" then
      match st.pauto with
      | none => do proxyVisitLoop { st with pauto := some (← v.asStr) } rest
      | some _ =>
        proxyVisitLoop { st with is_dup := some (.duplicateField "proxyAutoconfigUrl") } rest
    else if key = "ftpProxy" then
      match st.ftpp with
      | none => do proxyVisitLoop { st with ftpp := some (← v.asStr) } rest
      | some _ =>
        proxyVisitLoop { st with is_dup := some (.duplicateField "ftpProxy") } rest
    else if key = "httpProxy" then
      match st.npxy with  -- source bug: guards on npxy
      | none => do proxyVisitLoop { st with httpp := some (← v.asStr) } rest
      | some _ =>
        proxyVisitLoop { st with is_dup := some (.duplicateField "httpProxy") } rest
    else if key = "noProxy" then
      match st.npxy with
      | none => do proxyVisitLoop { st with npxy := some (← v.asStrList) } rest
      | some _ =>
        proxyVisitLoop { st with is_dup := some (.duplicateField "noProxy") } rest
    else if key = "sslProxy" then
      match st.npxy with  -- source bug: guards on npxy
      | none => do proxyVisitLoop { st with sslp := some (← v.asStr) } rest
      | some _ =>
        proxyVisitLoop { st with is_dup := some (.duplicateField "sslProxy") } rest
    else if key = "socksProxy" then
      match st.npxy with  -- source bug: guards on npxy
      | none => do proxyVisitLoop { st with socksp := some (← v.asStr) } rest
      | some _ =>
        proxyVisitLoop { st with is_dup := some (.duplicateField "socksProxy") } rest
    else if key = "socksVersion" then
      match st.npxy with  -- source bug: guards on npxy
      | none => do proxyVisitLoop { st with socksv := some (← v.asU8) } rest
      | some _ =>
        proxyVisitLoop { st with is_dup := some (.duplicateField "socksVersion") } rest
    else
      proxyVisitLoop st rest  -- unknown key: value skipped via IgnoredAny

/-- `deser_proxyref::StructVisitor::visit_map` (src/wdcmd/session/comm.rs
lines 684-766): run the key loop over the JSON object's entries, then
report a pending duplicate error or build the `Proxy` with
`unwrap_or_default()` for every missing field. -/
def proxyVisitMap (entries : List (String × PVal)) : Except DeErr Proxy := do
  let st ← proxyVisitLoop {} entries
  match st.is_dup with
  | some e => .error e
  | none =>
    .ok { proxy_type := st.ptype.getD ""
          proxy_autoconfig_url := st.pauto.getD ""
          ftp_proxy := st.ftpp.getD ""
          http_proxy := st.httpp.getD ""
          no_proxy := st.npxy.getD []
          ssl_proxy := st.sslp.getD ""
          socks_proxy := st.socksp.getD ""
          socks_version := st.socksv.getD 0 }

-- ======================================================================== --
-- HTTP codec, from src/httpp.rs                                            --
-- ======================================================================== --

/-- `HttpError` from src/httpp.rs (lines 17-35); only the variants the
response path can produce are listed. -/
inductive HttpError where
  | Buggy
  | InvalidHttpData
  | InvalidHttpVersion
  | InvalidContentLength
  | HeaderNotExistContentLength
  | PersistBodyPathNotFound
  | PersistBodyWrite
  | IncompleteFinish
  deriving DecidableEq, Repr

/-- Outcome of a fallible HTTP-codec operation: `ok`, a returned
`HttpError`, or a Rust panic (`unwrap`/`expect` on a failed read,
out-of-bounds indexing or slicing, or an explicit `panic!`). -/
inductive Hout (α : Type) where
  | ok (a : α)
  | err (e : HttpError)
  | panic
  deriving DecidableEq, Repr

def Hout.bind {α β : Type} : Hout α → (α → Hout β) → Hout β
  | .ok a, f => f a
  | .err e, _ => .err e
  | .panic, _ => .panic

instance : Monad Hout where
  pure := Hout.ok
  bind := Hout.bind

/-- `Hout.holds r p` evaluates the boolean observation `p` on a successful
outcome, and is `false` otherwise. -/
def Hout.holds {α : Type} (r : Hout α) (p : α → Bool) : Bool :=
  match r with
  | .ok a => p a
  | _ => false

-- The header finder (each of `get_content_length`, `get_connection`,
-- `get_upgrade`, `get_host`, `get_ws_key`, `get_ws_ver`, `get_ws_accept`
-- in src/httpp.rs repeats the same two scanning loops with its own
-- initial-letter pair and name literals; here the common algorithm is a
-- single function instantiated per header).

/-- First loop of the finders (e.g. src/httpp.rs lines 715-737 for
`get_connection`): scan for a byte equal to either initial letter, then
compare `h_name_len` bytes against the two name literals.  Reaching the
end of the buffer gives `HeaderNotExistContentLength` (all the finders
return this variant, a source copy-paste); the name-comparison slice
`&buf[curi..curi + h_name_len]` panics when it runs past the end. -/
def hdrFindName (hInit hInitAlt : Nat) (hName hNameAlt : List Nat) :
    List Nat → Hout (List Nat)
  | [] => .err .HeaderNotExistContentLength
  | b :: rest =>
    if b = hInit ∨ b = hInitAlt then
      if (b :: rest).length < hName.length then .panic
      else if (b :: rest).take hName.length = hName
          ∨ (b :: rest).take hName.length = hNameAlt then
        .ok ((b :: rest).drop hName.length)
      else hdrFindName hInit hInitAlt hName hNameAlt rest
    else hdrFindName hInit hInitAlt hName hNameAlt rest

/-- The `while self.headers[hdl_val_begi] == b' '` skip of leading spaces
(e.g. src/httpp.rs lines 729-731); indexing past the end panics. -/
def hdrSkipSpaces : List Nat → Hout (List Nat)
  | [] => .panic
  | b :: rest => if b = 32 then hdrSkipSpaces rest else .ok (b :: rest)

/-- The `while self.headers[hdl_val_endi] == b' ' { hdl_val_endi -= 1 }`
right-trim (e.g. src/httpp.rs lines 744-746), as an index computation: step
left from `i` while the byte there is a space.  (The loop starts at the
index of the CR byte, which is never a space, so it never moves.) -/
def rtrimFrom (buf : List Nat) : Nat → Nat
  | 0 => 0
  | i + 1 => if buf.getD (i + 1) 0 = 32 then rtrimFrom buf i else i + 1

/-- Second loop of the finders (e.g. src/httpp.rs lines 739-753): scan the
value bytes up to CR, require LF right after (else `panic!("bug")`), then
right-trim from the CR index. -/
def hdrScanValue (acc : List Nat) : List Nat → Hout (List Nat)
  | [] => .panic
  | b :: rest =>
    if b = 13 then
      match rest with
      | [] => .panic
      | c :: _ =>
        if c = 10 then
          let full := acc ++ [13]
          .ok (full.take (rtrimFrom full acc.length))
        else .panic
    else hdrScanValue (acc ++ [b]) rest

/-- A complete finder: locate the name, skip leading spaces, scan to CRLF,
and fail with `HeaderNotExistContentLength` when the value is empty
(`hdl_val_endi - hdl_val_begi > 0` check, e.g. src/httpp.rs lines
755-759). -/
def getHeaderValue (hInit hInitAlt : Nat) (hName hNameAlt : List Nat)
    (headers : List Nat) : Hout (List Nat) :=
  (hdrFindName hInit hInitAlt hName hNameAlt headers).bind fun afterName =>
  (hdrSkipSpaces afterName).bind fun atValue =>
  (hdrScanValue [] atValue).bind fun v =>
  if v ≠ [] then .ok v else .err .HeaderNotExistContentLength

/-- ASCII whitespace for `str::trim` purposes. -/
def isRustWs (b : Nat) : Bool :=
  b = 32 || b = 9 || b = 10 || b = 13

/-- `String::from_utf8_lossy(...).trim()` on a byte buffer. -/
def trimBytes (bs : List Nat) : List Nat :=
  ((bs.dropWhile isRustWs).reverse.dropWhile isRustWs).reverse

/-- `str::parse::<usize>()`: an optional leading `+` followed by one or
more ASCII digits. -/
def parseUsize (bs : List Nat) : Option Nat :=
  let ds := match bs with
    | 43 :: rest => rest
    | _ => bs
  if ds ≠ [] ∧ ds.all fun b => 48 ≤ b ∧ b ≤ 57 then
    some (ds.foldl (fun acc b => acc * 10 + (b - 48)) 0)
  else none

/-- `HttpResponseParts::get_content_length` (src/httpp.rs lines 649-706):
find the value of `Content-Length:`/`content-length:`, then
`.trim().parse::<usize>().unwrap()` it (the unwrap panics on a
non-numeric value). -/
def get_content_length (headers : List Nat) : Hout Nat :=
  (getHeaderValue 67 99 (strBytes "Content-Length:")
      (strBytes "content-length:") headers).bind fun v =>
  match parseUsize (trimBytes v) with
  | some n => .ok n
  | none => .panic

/-- `get_connection` (src/httpp.rs lines 708-760). -/
def get_connection (headers : List Nat) : Hout (List Nat) :=
  getHeaderValue 67 99 (strBytes "Connection:") (strBytes "connection:") headers

/-- `get_upgrade` (src/httpp.rs lines 762-814). -/
def get_upgrade (headers : List Nat) : Hout (List Nat) :=
  getHeaderValue 85 117 (strBytes "Upgrade:") (strBytes "upgrade:") headers

/-- `HttpRequestParts::get_host` (src/httpp.rs lines 290-342). -/
def get_host (headers : List Nat) : Hout (List Nat) :=
  getHeaderValue 72 104 (strBytes "Host:") (strBytes "host:") headers

/-- `HttpRequestParts::get_ws_key` (src/httpp.rs lines 344-396).  NB the
alternate name literal in the source is `b"sec-webSocket-key:"` (capital
`S` in `Socket`), not the all-lowercase spelling. -/
def get_ws_key (headers : List Nat) : Hout (List Nat) :=
  getHeaderValue 83 115 (strBytes "Sec-WebSocket-Key:")
    (strBytes "sec-webSocket-key:") headers

/-- `HttpRequestParts::get_ws_ver` (src/httpp.rs lines 398-450); here the
alternate literal is the all-lowercase `b"sec-websocket-version:"`. -/
def get_ws_ver (headers : List Nat) : Hout (List Nat) :=
  getHeaderValue 83 115 (strBytes "Sec-WebSocket-Version:")
    (strBytes "sec-websocket-version:") headers

/-- `HttpResponseParts::get_ws_accept` (src/httpp.rs lines 816-868).  NB
the alternate name literal is `b"sec-webSocket-accept:"` (capital `S` in
`Socket`). -/
def get_ws_accept (headers : List Nat) : Hout (List Nat) :=
  getHeaderValue 83 115 (strBytes "Sec-WebSocket-Accept:")
    (strBytes "sec-webSocket-accept:") headers

/-- `HttpResponseParts` (src/httpp.rs lines 633-639). -/
structure HttpResponseParts where
  httpver : List Nat := []
  status : List Nat := []
  headers : List Nat := []
  msgbody : List Nat := []
  msgbody_persist : Option String := none
  deriving DecidableEq, Repr

namespace HttpResponseParts

/-- `HttpResponseParts::is_ok` (src/httpp.rs lines 935-937):
`&self.status == b"200 OK"`. -/
def is_ok (r : HttpResponseParts) : Bool :=
  r.status == strBytes "200 OK"

end HttpResponseParts

/-- `stream.read_exact(&mut rbuf[..n]).unwrap()`: take exactly `n` bytes
from the stream, panicking when fewer are available. -/
def readExact (n : Nat) (s : List Nat) : Hout (List Nat × List Nat) :=
  if s.length < n then .panic else .ok (s.take n, s.drop n)

/-- The reason-phrase loop of `HttpResponseParts::from_stream`
(src/httpp.rs lines 1030-1047): read byte by byte into the 8192-byte
`rbuf` until CR; the byte after the CR must be LF, else
`InvalidHttpData`.  `acc.length` plays the role of `curi`; writing at an
index ≥ 8192 is an out-of-bounds panic. -/
def scanReason (acc : List Nat) : List Nat → Hout (List Nat × List Nat)
  | [] => .panic
  | b :: rest =>
    if acc.length ≥ 8192 then .panic
    else if b = 13 then
      if acc.length + 1 ≥ 8192 then .panic
      else
        match rest with
        | [] => .panic
        | c :: rest2 =>
          if c = 10 then .ok (acc, rest2) else .err .InvalidHttpData
    else scanReason (acc ++ [b]) rest

/-- The header-block loop of `HttpResponseParts::from_stream`
(src/httpp.rs lines 1057-1075): read byte by byte; after a CR read three
more bytes and stop when they are LF CR LF, keeping the full terminator in
the headers buffer; otherwise keep all four bytes and continue. -/
def scanHeaders (acc : List Nat) : List Nat → Hout (List Nat × List Nat)
  | [] => .panic
  | b :: rest =>
    if acc.length ≥ 8192 then .panic
    else if b = 13 then
      if acc.length + 4 > 8192 then .panic
      else
        match rest with
        | t1 :: t2 :: t3 :: rest2 =>
          if t1 = 10 ∧ t2 = 13 ∧ t3 = 10 then
            .ok (acc ++ [13, 10, 13, 10], rest2)
          else scanHeaders (acc ++ [13, t1, t2, t3]) rest2
        | _ => .panic
    else scanHeaders (acc ++ [b]) rest

/-- The read/skip/write loop of the streaming-to-disk arm of
`HttpResponseParts::from_stream` (src/httpp.rs lines 1139-1186).  Each
socket `read` delivers the next chunk; an exhausted chunk list or an empty
chunk models a read of 0 bytes ("remote closed"), which breaks the loop.
Returns the bytes written to the persistence file and the final `nleft`. -/
def persistLoop (chunks : List (List Nat)) (nleft insig_head_tmp : Nat)
    (written : List Nat) : Hout (List Nat × Nat) :=
  if nleft = 0 then .ok (written, 0)
  else
    match chunks with
    | [] => .ok (written, nleft)
    | c :: rest =>
      let nread := c.length
      if nread > 0 then
        if nleft < nread then .err .InvalidContentLength
        else if insig_head_tmp > nread then
          persistLoop rest (nleft - nread) (insig_head_tmp - nread) written
        else persistLoop rest (nleft - nread) 0 (written ++ c.drop insig_head_tmp)
      else .ok (written, nleft)

/-- `HttpResponseParts::from_stream` (src/httpp.rs lines 960-1210).

The TCP stream is modelled in two parts: `s` holds the bytes consumed by
the byte-wise status-line/header phase, and `bodyChunks` lists the sizes
in which the OS delivers the rest (any bytes of `s` left over after the
header terminator are, as on a real stream, delivered first).  The result
pairs the response with the bytes finally held by the persistence file
(empty when no `pbody_path` is given); opening the persistence file is
assumed to succeed (a failing `open` returns `PersistBodyPathNotFound`).

Mirrored behaviour: the HTTP-version whitelist; the 4-byte status code
followed by the reason phrase; `insig_head`/`insig_tail` zeroed unless the
status code bytes are `"200 "`; a missing `Content-Length` yielding a
header-only response; the in-memory body slice
`[insig_head_tmp, len - insig_tail_tmp)` (the `≤ 8192` and the
heap-buffer branches compute the same bytes); the persist loop followed by
`set_len(msgbody_len - insig_head - insig_tail)` using the *original*
trim arguments. -/
def from_stream (s : List Nat) (bodyChunks : List (List Nat))
    (pbody_path : Option String) (insig_head insig_tail : Nat) :
    Hout (HttpResponseParts × List Nat) :=
  (readExact 9 s).bind fun (v9, s1) =>
  if v9 = strBytes "HTTP/0.9 " ∨ v9 = strBytes "HTTP/1.0 "
      ∨ v9 = strBytes "HTTP/1.1 " ∨ v9 = strBytes "HTTP/2.0 "
      ∨ v9 = strBytes "HTTP/3.0 " then
    (readExact 4 s1).bind fun (code4, s2) =>
    let insigs := if code4 = strBytes "200 " then (insig_head, insig_tail) else (0, 0)
    (scanReason [] s2).bind fun (reason, s3) =>
    (scanHeaders [] s3).bind fun (headers, s4) =>
    let template : HttpResponseParts :=
      { httpver := v9.take 8, status := code4 ++ reason, headers := headers }
    let chunks := if s4 = [] then bodyChunks else s4 :: bodyChunks
    match get_content_length headers with
    | .panic => .panic
    | .err _ => .ok (template, [])
    | .ok msgbody_len =>
      match pbody_path with
      | none =>
        (readExact msgbody_len chunks.flatten).bind fun (bytes, _) =>
        if insigs.2 > msgbody_len then .panic
        else if insigs.1 > msgbody_len - insigs.2 then .panic
        else
          .ok ({ template with
                  msgbody := (bytes.drop insigs.1).take (msgbody_len - insigs.2 - insigs.1) },
               [])
      | some path =>
        (persistLoop chunks msgbody_len insigs.1 []).bind fun (written, nleft) =>
        if nleft = 0 then
          if insig_head + insig_tail > msgbody_len then .panic
          else
            .ok ({ template with msgbody_persist := some path },
                 written.take (msgbody_len - insig_head - insig_tail))
        else .err .IncompleteFinish
  else .err .InvalidHttpVersion

-- ======================================================================== --
-- Theorems                                                                 --
-- ======================================================================== --

/-- C5: for every command whose HTTP response status is not 200, the body
is parsed as an error object; the outcome is `BusyCreateSession` exactly
when the parsed `error` field is `"session not created"` and the `message`
field is `"Session is already started"`, and every other successfully
parsed error object yields `BadDrvCmd(error, message)`. -/
theorem check_fail_drvcmd_busy_iff (eobj : BadCmdResp) :
    (check_fail_drvcmd (.ok eobj) = .BusyCreateSession ↔
      eobj.error = "session not created" ∧ eobj.message = "Session is already started") ∧
    (check_fail_drvcmd (.ok eobj) = .BusyCreateSession ∨
      check_fail_drvcmd (.ok eobj) = .BadDrvCmd eobj.error eobj.message) := by
  by_cases h1 : eobj.error = "session not created" <;>
    by_cases h2 : eobj.message = "Session is already started" <;>
      simp [check_fail_drvcmd, h1, h2]

/-- C10: `set_profile(p)` (and `set_profile_take(p)`) store `p` into the
extension block's `binary` field and leave the `profile` field unchanged;
on a default `FirefoxCapa`, after `set_profile(p)` the getter `profile()`
returns `None` while `binary()` returns `p`. -/
theorem set_profile_stores_binary (c : FirefoxCapa) (p : String) :
    ((c.set_profile p).ext.binary = some p
        ∧ (c.set_profile p).ext.profile = c.ext.profile)
      ∧ ((c.set_profile_take p).ext.binary = some p
        ∧ (c.set_profile_take p).ext.profile = c.ext.profile)
      ∧ (FirefoxCapa.set_profile {} p).profile? = none
      ∧ (FirefoxCapa.set_profile {} p).binary? = some p :=
  ⟨⟨rfl, rfl⟩, ⟨rfl, rfl⟩, rfl, rfl⟩

/-- C4 (failing input): starting from a default request, `mandate` a
capability whose `binary` is set, then `allow` a capability whose
`profile` is set (and nothing else).  The allow-time conflict check
passes, but the pushed copy conflicts with `always_match`: the copy went
through `set_profile`, which stores the profile into `binary`, so
`first_match` ends up holding an entry that conflicts with `always_match`
on `binary` — the invariant claimed by the spec is violated. -/
theorem mandate_allow_conflict_violation :
    (((GeckoCapRequ.mandate {} (FirefoxCapa.set_binary {} "/usr/bin/firefox")).allow
        { ext := { profile := some "/home/u/prof" } }).first_match.length = 1)
      ∧ (((GeckoCapRequ.mandate {} (FirefoxCapa.set_binary {} "/usr/bin/firefox")).allow
          { ext := { profile := some "/home/u/prof" } }).first_match.any
            (fun x =>
              ((GeckoCapRequ.mandate {} (FirefoxCapa.set_binary {} "/usr/bin/firefox")).allow
                { ext := { profile := some "/home/u/prof" } }).always_match.is_conflict_with x)
            = true) := by
  decide

/-- C7 (failing inputs): in `deser_proxyref`'s `visit_map` the duplicate
guards of the `httpProxy`, `sslProxy`, `socksProxy` and `socksVersion`
arms test the `noProxy` accumulator.  Consequently an object containing
`noProxy` followed by a single `httpProxy` fails with a duplicate-field
error, while an object in which `httpProxy` genuinely appears twice
deserializes successfully (the second value wins). -/
theorem proxy_visit_duplicate_guard_wrong :
    proxyVisitMap [("noProxy", .strList ["localhost"]), ("httpProxy", .str "h:1")]
        = .error (.duplicateField "httpProxy")
      ∧ proxyVisitMap [("httpProxy", .str "h:1"), ("httpProxy", .str "h:2")]
        = .ok { http_proxy := "h:2" } := by
  decide

/-- C8 (failing inputs): the `Drop` impl calls
`del_session(ssid).expect(...)` — a deletion error panics instead of
being swallowed — and removes from `ssids` while iterating `0..len`, so
with two sessions the second iteration indexes out of bounds and panics
after deleting only the first id. -/
theorem webdrv_drop_panics :
    webDrvClientDrop (fun _ => .ok ()) ["s1", "s2"] = .panicked ["s1"]
      ∧ webDrvClientDrop (fun _ => .error (.BadDrvCmd "e" "m")) ["s1"]
        = .panicked ["s1"]
      ∧ webDrvClientDrop (fun _ => .ok ()) ["s1"] = .finished ["s1"] [] := by
  decide

-- C3 development ---------------------------------------------------------

lemma ceilDiv_eq_one {n L : Nat} (h1 : 1 ≤ n) (h2 : n ≤ L) :
    (n + L - 1) / L = 1 := by
  have hL : 0 < L := Nat.lt_of_lt_of_le h1 h2
  have he : n + L - 1 = (n - 1) + L := by omega
  rw [he, Nat.add_div_right _ hL, Nat.div_eq_of_lt (by omega)]

lemma ceilDiv_step {n L : Nat} (hL : 1 ≤ L) (h : L < n) :
    (n + L - 1) / L = 1 + (n - L + L - 1) / L := by
  have h1 : n + L - 1 = (n - 1) + L := by omega
  have h2 : n - L + L - 1 = n - 1 := by omega
  rw [h1, h2, Nat.add_div_right _ (by omega)]
  exact Nat.add_comm _ _

lemma with_size_kinds_ok (kinds : Bool × Bool × Bool) (n : Nat)
    (h1 : 1 ≤ n) (h : n ≤ allowedCap kinds) :
    ∃ sk, WebSocketFrame.with_size_kinds kinds n
        = .ok { size_kind := sk, ops := 0, plen := 0, mkey := none, payload := [] }
      ∧ n ≤ capOf sk := by
  obtain ⟨s, m, l⟩ := kinds
  simp only [allowedCap] at h
  simp only [WebSocketFrame.with_size_kinds]
  cases s <;> cases m <;> cases l <;> simp_all [capOf] <;>
    (try (exfalso; omega)) <;> (try omega) <;>
    split_ifs <;>
    first
    | exact ⟨.S, rfl, by simp [capOf]; omega⟩
    | exact ⟨.M, rfl, by simp [capOf]; omega⟩
    | exact ⟨.L, rfl, by simp [capOf]; omega⟩
    | omega

lemma get_message_data_go_ok (fs : List WebSocketFrame)
    (h : ∀ f ∈ fs, frameLenOk f) :
    WebSocketMessage.get_message_data_go fs = .ok ((fs.map (·.payload)).flatten) := by
  induction fs with
  | nil => rfl
  | cons f fs ih =>
    have hf := h f (by simp)
    have hrest : ∀ g ∈ fs, frameLenOk g := fun g hg => h g (by simp [hg])
    obtain ⟨hS, hM⟩ := hf
    cases hsk : f.size_kind with
    | S =>
      have h125 : ¬f.plen > 125 := by have := hS hsk; omega
      simp [WebSocketMessage.get_message_data_go, hsk, h125, ih hrest, Except.map]
    | M =>
      have h65 : ¬f.plen > 65535 := by have := hM hsk; omega
      simp [WebSocketMessage.get_message_data_go, hsk, h65, ih hrest, Except.map]
    | L =>
      simp [WebSocketMessage.get_message_data_go, hsk, ih hrest, Except.map]

lemma frameLoop_nil (kinds : Bool × Bool × Bool) (L : Nat)
    (itext ip ipo nm : Bool) (fuel starti : Nat) :
    WebSocketMessage.frameLoop kinds L itext ip ipo nm fuel [] starti = ([], none) := by
  cases fuel <;> simp [WebSocketMessage.frameLoop]

/-- One-step evaluation of the framing loop on a nonempty rest: the frame
produced is explicit. -/
lemma frameLoop_cons (kinds : Bool × Bool × Bool) (L : Nat) (itext nm : Bool)
    (hL1 : 1 ≤ L) (hLcap : L ≤ allowedCap kinds)
    (fuel : Nat) (rest : List Nat) (starti : Nat) (hne : rest ≠ []) :
    ∃ sk, (if rest.length > L then L else rest.length) ≤ capOf sk ∧
      WebSocketMessage.frameLoop kinds L itext false false nm (fuel + 1) rest starti =
        (let actual := if rest.length > L then L else rest.length
         let base : Nat := if starti = 0 then (if itext then 1 else 2) else 0
         let f : WebSocketFrame :=
           { size_kind := sk
             ops := if rest.drop actual = [] then base ||| 128 else base
             plen := actual
             mkey := if nm then some 0x37fa213d else none
             payload := rest.take actual }
         let (fs, err) :=
           WebSocketMessage.frameLoop kinds L itext false false nm fuel (rest.drop actual)
             (starti + actual)
         (f :: fs, err)) := by
  have hrl : 1 ≤ rest.length := List.length_pos.2 hne
  have hact1 : 1 ≤ (if rest.length > L then L else rest.length) := by split <;> omega
  have hactL : (if rest.length > L then L else rest.length) ≤ L := by split <;> omega
  have hactR : (if rest.length > L then L else rest.length) ≤ rest.length := by
    split <;> omega
  obtain ⟨sk, hwsk, hcap⟩ := with_size_kinds_ok kinds _ hact1 (le_trans hactL hLcap)
  refine ⟨sk, hcap, ?_⟩
  have htk : (rest.take (if rest.length > L then L else rest.length)).length
      = (if rest.length > L then L else rest.length) := by
    rw [List.length_take]; omega
  cases sk with
  | S =>
    have hb : ¬((rest.take (if rest.length > L then L else rest.length)).length > 125) := by
      rw [htk]; simp only [capOf] at hcap; omega
    have hb2 : ¬((if rest.length > L then L else rest.length) > 125) := by
      simp only [capOf] at hcap; omega
    by_cases hs : starti = 0 <;> cases itext <;> cases nm <;>
      by_cases hd : rest.drop (if rest.length > L then L else rest.length) = [] <;>
      simp [WebSocketMessage.frameLoop, hne, hwsk, hs, hd, hb, hb2,
        WebSocketFrame.set_text_frame, WebSocketFrame.set_binary_frame,
        WebSocketFrame.set_ping, WebSocketFrame.set_pong,
        WebSocketFrame.set_payload, WebSocketFrame.set_plen,
        WebSocketFrame.set_mask, WebSocketFrame.set_fin]
  | M =>
    have hb : ¬((rest.take (if rest.length > L then L else rest.length)).length > 65535) := by
      rw [htk]; simp only [capOf] at hcap; omega
    have hb2 : ¬((if rest.length > L then L else rest.length) > 65535) := by
      simp only [capOf] at hcap; omega
    by_cases hs : starti = 0 <;> cases itext <;> cases nm <;>
      by_cases hd : rest.drop (if rest.length > L then L else rest.length) = [] <;>
      simp [WebSocketMessage.frameLoop, hne, hwsk, hs, hd, hb, hb2,
        WebSocketFrame.set_text_frame, WebSocketFrame.set_binary_frame,
        WebSocketFrame.set_ping, WebSocketFrame.set_pong,
        WebSocketFrame.set_payload, WebSocketFrame.set_plen,
        WebSocketFrame.set_mask, WebSocketFrame.set_fin]
  | L =>
    by_cases hs : starti = 0 <;> cases itext <;> cases nm <;>
      by_cases hd : rest.drop (if rest.length > L then L else rest.length) = [] <;>
      simp [WebSocketMessage.frameLoop, hne, hwsk, hs, hd,
        WebSocketFrame.set_text_frame, WebSocketFrame.set_binary_frame,
        WebSocketFrame.set_ping, WebSocketFrame.set_pong,
        WebSocketFrame.set_payload, WebSocketFrame.set_plen,
        WebSocketFrame.set_mask, WebSocketFrame.set_fin]

/-- The framing-loop specification: with a positive max frame length
within the allowed caps and enough fuel, the loop succeeds and produces
`⌈rest.length / L⌉` frames whose payloads concatenate back to `rest`,
whose declared lengths fit their size classes, with the FIN bit on
exactly the last frame and the text/binary opcode on exactly the first
frame of the message (`starti = 0`), all other frames carrying opcode 0. -/
lemma frameLoop_spec (kinds : Bool × Bool × Bool) (L : Nat) (itext nm : Bool)
    (hL1 : 1 ≤ L) (hLcap : L ≤ allowedCap kinds) :
    ∀ (fuel : Nat) (rest : List Nat) (starti : Nat),
      rest ≠ [] → rest.length ≤ fuel →
      ∃ fs, WebSocketMessage.frameLoop kinds L itext false false nm fuel rest starti = (fs, none)
        ∧ fs.length = (rest.length + L - 1) / L
        ∧ (fs.map (·.payload)).flatten = rest
        ∧ (∀ f ∈ fs, frameLenOk f)
        ∧ (∀ i (h : i < fs.length),
            (fs.get ⟨i, h⟩).ops &&& 128 = if i = fs.length - 1 then 128 else 0)
        ∧ (∀ i (h : i < fs.length),
            (fs.get ⟨i, h⟩).ops &&& 15
              = if starti = 0 ∧ i = 0 then (if itext then 1 else 2) else 0) := by
  intro fuel
  induction fuel with
  | zero =>
    intro rest starti hne hlen
    exact absurd (List.length_eq_zero.1 (Nat.le_zero.1 hlen)) hne
  | succ fuel ih =>
    intro rest starti hne hlen
    have hrl : 1 ≤ rest.length := by
      cases rest with
      | nil => exact absurd rfl hne
      | cons a t => simp
    obtain ⟨sk, hcap, hstep⟩ :=
      frameLoop_cons kinds L itext nm hL1 hLcap fuel rest starti hne
    set actual := if rest.length > L then L else rest.length with hact
    have hact1 : 1 ≤ actual := by rw [hact]; split <;> omega
    have hactL : actual ≤ L := by rw [hact]; split <;> omega
    have hactR : actual ≤ rest.length := by rw [hact]; split <;> omega
    have htk : (rest.take actual).length = actual := by
      rw [List.length_take]; omega
    by_cases hlast : rest.drop actual = []
    · -- final frame
      have heq : actual = rest.length := by
        have := List.length_drop actual rest ▸ congrArg List.length hlast
        simp at this; omega
      have htake : rest.take actual = rest := by
        rw [heq]; exact List.take_length rest
      refine ⟨[{ size_kind := sk
                 ops := (if starti = 0 then (if itext then 1 else 2) else 0) ||| 128
                 plen := actual
                 mkey := if nm then some 0x37fa213d else none
                 payload := rest.take actual }], ?_, ?_, ?_, ?_, ?_, ?_⟩
      · rw [hstep]
        simp [hlast, frameLoop_nil]
      · simp [ceilDiv_eq_one hrl (by omega : rest.length ≤ L), hact, heq]
      · simp [htake]
      · intro f hf
        simp at hf
        subst hf
        cases sk <;> simp [frameLenOk, capOf] at hcap ⊢ <;> omega
      · intro i h
        simp at h
        subst h
        simp only [List.length_singleton, List.get]
        rw [if_pos trivial]
        by_cases hs : starti = 0 <;> cases itext <;> simp [hs] <;> decide
      · intro i h
        simp at h
        subst h
        simp only [List.length_singleton, List.get]
        by_cases hs : starti = 0 <;> cases itext <;> simp [hs] <;> decide
    · -- a full-length frame followed by more frames
      have hgt : L < rest.length := by
        by_contra hgtn
        have hae : actual = rest.length := by rw [hact, if_neg (by omega)]
        exact hlast (by rw [hae]; simp)
      have hactLeq : actual = L := by rw [hact, if_pos hgt]
      have hdne : rest.drop actual ≠ [] := hlast
      have hdlen : (rest.drop actual).length ≤ fuel := by
        rw [List.length_drop]; omega
      obtain ⟨fs', hloop', hlen', hflat', hok', hfin', hops'⟩ :=
        ih (rest.drop actual) (starti + actual) hdne hdlen
      have hfs'ne : fs' ≠ [] := by
        intro hc
        rw [hc] at hflat'
        exact hdne (by simpa using hflat'.symm)
      have hfs'len : 1 ≤ fs'.length := by
        cases fs' with
        | nil => exact absurd rfl hfs'ne
        | cons a t => simp
      refine ⟨{ size_kind := sk
                ops := if starti = 0 then (if itext then 1 else 2) else 0
                plen := actual
                mkey := if nm then some 0x37fa213d else none
                payload := rest.take actual } :: fs', ?_, ?_, ?_, ?_, ?_, ?_⟩
      · rw [hstep]
        simp only [← hact, if_neg hlast, hloop']
      · simp only [List.length_cons, hlen', List.length_drop, hactLeq]
        rw [ceilDiv_step hL1 hgt]
        omega
      · simp [hflat']
      · intro f hf
        simp at hf
        rcases hf with hf | hf
        · subst hf
          cases sk <;> simp [frameLenOk, capOf] at hcap ⊢ <;> omega
        · exact hok' f hf
      · intro i h
        match i with
        | 0 =>
          have hne0 : (0 : Nat) ≠ (List.length fs' + 1) - 1 := by
            simp; omega
          simp only [List.length_cons, List.get, if_neg hne0]
          by_cases hs : starti = 0 <;> cases itext <;> simp [hs] <;> decide
        | i + 1 =>
          simp only [List.length_cons, List.get] at h ⊢
          have h' : i < fs'.length := by omega
          have hfi := hfin' i h'
          simp only [Nat.add_sub_cancel]
          simp only [show (i + 1 = fs'.length) ↔ (i = fs'.length - 1) from by omega]
          exact hfi
      · intro i h
        match i with
        | 0 =>
          simp only [List.get]
          by_cases hs : starti = 0 <;> cases itext <;> simp [hs] <;> decide
        | i + 1 =>
          simp only [List.length_cons, List.get] at h ⊢
          have h' : i < fs'.length := by omega
          have hoi := hops' i h'
          have hc1 : ¬(starti + actual = 0 ∧ i = 0) := fun hc => by
            have := hc.1
            omega
          have hc2 : ¬(starti = 0 ∧ i + 1 = 0) := fun hc => by
            have := hc.2
            omega
          rw [if_neg hc1] at hoi
          rw [if_neg hc2]
          exact hoi

/-- C3: for every non-empty payload and every permitted max frame length
`L` (positive and within the cap of the largest allowed size class),
encoding the payload as a text or binary WebSocket message produces
exactly `⌈|P| / L⌉` frames, of which exactly the last carries FIN=1,
exactly the first carries the text (resp. binary) opcode, every other
frame carries opcode 0, and `get_message_data` reassembles the original
payload. -/
theorem set_message_data_fragmentation (kinds : Bool × Bool × Bool)
    (data : List Nat) (L : Nat) (isText : Bool)
    (hdata : data ≠ []) (hL1 : 1 ≤ L) (hLcap : L ≤ allowedCap kinds) :
    let res := WebSocketMessage.set_message_data ⟨kinds, []⟩ data
      [(if isText then WspSett.TextMsg else WspSett.BinaryMsg), WspSett.MaxFrameLen L]
    res.2 = none
      ∧ res.1.frames.length = (data.length + L - 1) / L
      ∧ (∀ i (h : i < res.1.frames.length),
          (res.1.frames.get ⟨i, h⟩).ops &&& 128
            = if i = res.1.frames.length - 1 then 128 else 0)
      ∧ (∀ i (h : i < res.1.frames.length),
          (res.1.frames.get ⟨i, h⟩).ops &&& 15
            = if i = 0 then (if isText then 1 else 2) else 0)
      ∧ res.1.get_message_data = .ok data := by
  intro res
  have hsetts :
      WebSocketMessage.applySetts
        (false, WebSocketMessage.get_default_max_flen ⟨kinds, []⟩, false, false, false)
        [(if isText then WspSett.TextMsg else WspSett.BinaryMsg), WspSett.MaxFrameLen L]
      = (isText, L, false, false, false) := by
    cases isText <;> simp [WebSocketMessage.applySetts]
  obtain ⟨fs, hloop, hlen, hflat, hok, hfin, hops⟩ :=
    frameLoop_spec kinds L isText false hL1 hLcap data.length data 0 hdata le_rfl
  have hres : res = (⟨kinds, fs⟩, none) := by
    show WebSocketMessage.set_message_data ⟨kinds, []⟩ data _ = _
    rw [WebSocketMessage.set_message_data, hsetts]
    simp only
    rw [if_neg (by omega), if_neg (by simpa using hdata), hloop]
    simp
  rw [hres]
  refine ⟨rfl, by simpa using hlen, ?_, ?_, ?_⟩
  · intro i h
    simpa using hfin i (by simpa using h)
  · intro i h
    have := hops i (by simpa using h)
    simpa using this
  · show WebSocketMessage.get_message_data ⟨kinds, fs⟩ = _
    rw [WebSocketMessage.get_message_data]
    rw [get_message_data_go_ok fs hok, hflat]

/-- Witness for the fragmentation theorem: `"Hello"` as a text message
with max frame length 2 under the small size class. -/
theorem set_message_data_fragmentation_witness :
    strBytes "Hello" ≠ [] ∧ 1 ≤ 2 ∧ 2 ≤ allowedCap (true, false, false) ∧
    (let res := WebSocketMessage.set_message_data ⟨(true, false, false), []⟩ (strBytes "Hello")
      [(if true then WspSett.TextMsg else WspSett.BinaryMsg), WspSett.MaxFrameLen 2]
     res.2 = none
      ∧ res.1.frames.length = ((strBytes "Hello").length + 2 - 1) / 2
      ∧ (∀ i (h : i < res.1.frames.length),
          (res.1.frames.get ⟨i, h⟩).ops &&& 128
            = if i = res.1.frames.length - 1 then 128 else 0)
      ∧ (∀ i (h : i < res.1.frames.length),
          (res.1.frames.get ⟨i, h⟩).ops &&& 15
            = if i = 0 then (if true then 1 else 2) else 0)
      ∧ res.1.get_message_data = .ok (strBytes "Hello")) :=
  ⟨by decide, by decide, by decide,
    set_message_data_fragmentation (true, false, false) (strBytes "Hello") 2 true
      (by decide) (by decide) (by decide)⟩

-- C1 development ---------------------------------------------------------

lemma persistLoop_cons (c : List Nat) (rest : List (List Nat))
    (nleft ihead : Nat) (written : List Nat)
    (hc : c ≠ []) (hge : c.length ≤ nleft) :
    persistLoop (c :: rest) nleft ihead written
      = if ihead > c.length then
          persistLoop rest (nleft - c.length) (ihead - c.length) written
        else persistLoop rest (nleft - c.length) 0 (written ++ c.drop ihead) := by
  have hcl : 0 < c.length := List.length_pos.2 hc
  rw [persistLoop]
  rw [if_neg (show ¬nleft = 0 by omega)]
  simp only [if_pos hcl]
  rw [if_neg (show ¬nleft < c.length by omega)]

/-- The persist loop consumes chunks whose total size is exactly `nleft`,
skipping `ihead` initial bytes across reads and writing the rest. -/
lemma persistLoop_spec (chunks : List (List Nat)) :
    ∀ (ihead : Nat) (written : List Nat), (∀ c ∈ chunks, c ≠ []) →
    persistLoop chunks chunks.flatten.length ihead written
      = .ok (written ++ chunks.flatten.drop ihead, 0) := by
  induction chunks with
  | nil =>
    intro ihead written _
    simp [persistLoop]
  | cons c rest IH =>
    intro ihead written h
    have hc : c ≠ [] := h c (by simp)
    have hcl : 0 < c.length := List.length_pos.2 hc
    have hrest : ∀ d ∈ rest, d ≠ [] := fun d hd => h d (by simp [hd])
    have hfl : (c :: rest).flatten = c ++ rest.flatten := by simp
    have hlen : (c :: rest).flatten.length = c.length + rest.flatten.length := by
      simp
    rw [hlen, persistLoop_cons c rest _ ihead written hc (by omega)]
    by_cases hskip : ihead > c.length
    · rw [if_pos hskip]
      rw [show c.length + rest.flatten.length - c.length = rest.flatten.length by omega]
      rw [IH (ihead - c.length) written hrest]
      rw [hfl, show ihead = c.length + (ihead - c.length) by omega, List.drop_append]
      rw [Nat.add_sub_cancel_left]
    · rw [if_neg hskip]
      rw [show c.length + rest.flatten.length - c.length = rest.flatten.length by omega]
      rw [IH 0 (written ++ c.drop ihead) hrest]
      rw [hfl, List.drop_append_of_le_length (by omega), List.drop_zero,
        List.append_assoc]

@[simp] lemma Hout.bind_ok {α β : Type} (a : α) (f : α → Hout β) :
    (Hout.ok a).bind f = f a := rfl

@[simp] lemma Hout.bind_err {α β : Type} (e : HttpError) (f : α → Hout β) :
    (Hout.err e : Hout α).bind f = .err e := rfl

@[simp] lemma Hout.bind_panic {α β : Type} (f : α → Hout β) :
    (Hout.panic : Hout α).bind f = .panic := rfl

lemma readExact_append (A X : List Nat) (n : Nat) (h : A.length = n) :
    readExact n (A ++ X) = .ok (A, X) := by
  rw [readExact, if_neg (by rw [List.length_append]; omega),
    List.take_left' h, List.drop_left' h]

/-- C1: parsing a status-200 response from a stream with a persistence
path writes a file holding exactly bytes
`[insig_head, content_length − insig_tail)` of the body, of length
`content_length − insig_head − insig_tail`, no matter how the socket
chunks the body — including when `insig_head` exceeds a single read. -/
theorem from_stream_persist_writes_slice
    (rest2 reason rest3 hdrs : List Nat)
    (bodyChunks : List (List Nat)) (n insig_head insig_tail : Nat) (path : String)
    (hr : scanReason [] rest2 = .ok (reason, rest3))
    (hh : scanHeaders [] rest3 = .ok (hdrs, []))
    (hcl : get_content_length hdrs = .ok n)
    (hflat : bodyChunks.flatten.length = n)
    (hne : ∀ c ∈ bodyChunks, c ≠ [])
    (hins : insig_head + insig_tail ≤ n) :
    from_stream (strBytes "HTTP/1.1 " ++ (strBytes "200 " ++ rest2)) bodyChunks
        (some path) insig_head insig_tail
      = .ok ({ httpver := strBytes "HTTP/1.1", status := strBytes "200 " ++ reason,
               headers := hdrs, msgbody := [], msgbody_persist := some path },
             (bodyChunks.flatten.drop insig_head).take (n - insig_head - insig_tail))
      ∧ ((bodyChunks.flatten.drop insig_head).take (n - insig_head - insig_tail)).length
          = n - insig_head - insig_tail := by
  constructor
  · rw [from_stream, readExact_append _ _ 9 (by decide)]
    simp only [Hout.bind_ok, true_or, or_true, if_true]
    rw [readExact_append _ _ 4 (by decide)]
    simp only [Hout.bind_ok, if_true]
    rw [hr]
    simp only [Hout.bind_ok]
    rw [hh]
    simp only [Hout.bind_ok, if_true]
    simp only [hcl]
    rw [← hflat, persistLoop_spec bodyChunks insig_head [] hne]
    simp only [Hout.bind_ok, List.nil_append, if_true]
    rw [if_neg (by omega)]
    rw [show (strBytes "HTTP/1.1 ").take 8 = strBytes "HTTP/1.1" from by decide]
  · rw [List.length_take, List.length_drop, hflat]
    omega

/-- Witness for the persistence theorem: a 5-byte body delivered in five
1-byte reads with `insig_head = 3` (exceeding a single read) and
`insig_tail = 1`. -/
theorem from_stream_persist_writes_slice_witness :
    scanReason [] (strBytes "OK\r\ncontent-length: 5\r\n\r\n")
        = .ok (strBytes "OK", strBytes "content-length: 5\r\n\r\n")
      ∧ get_content_length (strBytes "content-length: 5\r\n\r\n") = .ok 5
      ∧ (from_stream
            (strBytes "HTTP/1.1 " ++ (strBytes "200 " ++ strBytes "OK\r\ncontent-length: 5\r\n\r\n"))
            [[1], [2], [3], [4], [5]] (some "body.json") 3 1
          = .ok ({ httpver := strBytes "HTTP/1.1",
                   status := strBytes "200 " ++ strBytes "OK",
                   headers := strBytes "content-length: 5\r\n\r\n",
                   msgbody := [], msgbody_persist := some "body.json" },
                 (([[1], [2], [3], [4], [5]] : List (List Nat)).flatten.drop 3).take (5 - 3 - 1))
          ∧ ((([[1], [2], [3], [4], [5]] : List (List Nat)).flatten.drop 3).take (5 - 3 - 1)).length
              = 5 - 3 - 1) :=
  ⟨by decide, by decide,
    from_stream_persist_writes_slice (strBytes "OK\r\ncontent-length: 5\r\n\r\n")
      (strBytes "OK") (strBytes "content-length: 5\r\n\r\n")
      (strBytes "content-length: 5\r\n\r\n") [[1], [2], [3], [4], [5]] 5 3 1 "body.json"
      (by decide) (by decide) (by decide) (by decide) (by decide) (by decide)⟩

/-- C9: when the status code is not `200 `, `from_stream` zeroes the trim
arguments for in-memory ingestion: the returned body holds all
`content_length` bytes untrimmed, whatever `insig_head`/`insig_tail`
were. -/
theorem from_stream_non200_body_untrimmed
    (code4 rest2 reason rest3 hdrs rest4 : List Nat) (bodyChunks : List (List Nat))
    (n insig_head insig_tail : Nat)
    (h4 : code4.length = 4)
    (hc : code4 ≠ strBytes "200 ")
    (hr : scanReason [] rest2 = .ok (reason, rest3))
    (hh : scanHeaders [] rest3 = .ok (hdrs, rest4))
    (hcl : get_content_length hdrs = .ok n)
    (hread : n ≤ ((if rest4 = [] then bodyChunks else rest4 :: bodyChunks).flatten).length) :
    from_stream (strBytes "HTTP/1.1 " ++ (code4 ++ rest2)) bodyChunks none
        insig_head insig_tail
      = .ok ({ httpver := strBytes "HTTP/1.1", status := code4 ++ reason,
               headers := hdrs,
               msgbody :=
                 ((if rest4 = [] then bodyChunks else rest4 :: bodyChunks).flatten).take n },
             []) := by
  rw [from_stream, readExact_append _ _ 9 (by decide)]
  simp only [Hout.bind_ok, true_or, or_true, if_true]
  rw [readExact_append _ _ 4 h4]
  simp only [Hout.bind_ok]
  rw [if_neg hc, hr]
  simp only [Hout.bind_ok]
  rw [hh]
  simp only [Hout.bind_ok, hcl]
  rw [readExact, if_neg (by omega)]
  simp only [Hout.bind_ok]
  rw [if_neg (by omega), if_neg (by omega)]
  rw [show (strBytes "HTTP/1.1 ").take 8 = strBytes "HTTP/1.1" from by decide]
  simp [List.take_take]

/-- Witness for the untrimmed-error-body theorem: a 404 response with a
3-byte body, requested trims 1/1, body returned whole. -/
theorem from_stream_non200_body_untrimmed_witness :
    strBytes "404 " ≠ strBytes "200 "
      ∧ (from_stream
            (strBytes "HTTP/1.1 " ++ (strBytes "404 " ++ strBytes "NF\r\ncontent-length: 3\r\n\r\n"))
            [[7, 8, 9]] none 1 1
          = .ok ({ httpver := strBytes "HTTP/1.1",
                   status := strBytes "404 " ++ strBytes "NF",
                   headers := strBytes "content-length: 3\r\n\r\n",
                   msgbody := ((if ([] : List Nat) = [] then [[7, 8, 9]]
                     else [] :: [[7, 8, 9]]).flatten).take 3 },
                 [])) :=
  ⟨by decide,
    from_stream_non200_body_untrimmed (strBytes "404 ")
      (strBytes "NF\r\ncontent-length: 3\r\n\r\n") (strBytes "NF")
      (strBytes "content-length: 3\r\n\r\n") (strBytes "content-length: 3\r\n\r\n") []
      [[7, 8, 9]] 3 1 1 (by decide) (by decide) (by decide) (by decide) (by decide)
      (by decide)⟩

/-- C2 (amended): for every successfully parsed response, `is_ok()`
returns `true` iff the full status — the 4 status-code bytes followed by
the reason phrase — equals exactly `"200 OK"` (code 200 *and* reason
`OK`), not merely when the status code starts with 200. -/
theorem is_ok_iff_status_exactly_200OK
    (code4 rest2 reason rest3 : List Nat) (bodyChunks : List (List Nat))
    (pb : Option String) (ihd itl : Nat) (resp : HttpResponseParts) (fbytes : List Nat)
    (h4 : code4.length = 4)
    (hr : scanReason [] rest2 = .ok (reason, rest3))
    (hok : from_stream (strBytes "HTTP/1.1 " ++ (code4 ++ rest2)) bodyChunks pb ihd itl
        = .ok (resp, fbytes)) :
    resp.is_ok = true ↔ code4 ++ reason = strBytes "200 OK" := by
  rw [from_stream, readExact_append _ _ 9 (by decide)] at hok
  simp only [Hout.bind_ok, true_or, or_true, if_true] at hok
  rw [readExact_append _ _ 4 h4] at hok
  simp only [Hout.bind_ok] at hok
  rw [hr] at hok
  simp only [Hout.bind_ok] at hok
  cases hsh : scanHeaders [] rest3 with
  | panic => rw [hsh] at hok; exact absurd hok (by simp)
  | err e => rw [hsh] at hok; exact absurd hok (by simp)
  | ok pr =>
    obtain ⟨hdrs, s4⟩ := pr
    rw [hsh] at hok
    simp only [Hout.bind_ok] at hok
    cases hgc : get_content_length hdrs with
    | panic =>
      simp only [hgc] at hok
      exact absurd hok (by simp)
    | err e =>
      simp only [hgc] at hok
      injection hok with h1
      have hR := congrArg Prod.fst h1
      simp only at hR
      rw [← hR]
      simp [HttpResponseParts.is_ok]
    | ok m =>
      simp only [hgc] at hok
      cases pb with
      | none =>
        simp only [readExact] at hok
        repeat'
          first
          | split at hok
          | simp only [Hout.bind_ok] at hok
          | (exfalso; revert hok; simp; done)
        all_goals
          injection hok with h1
        all_goals
          have hR := congrArg Prod.fst h1
        all_goals
          simp only at hR
        all_goals
          rw [← hR]
        all_goals
          simp [HttpResponseParts.is_ok]
      | some path =>
        simp only [] at hok
        cases hpl : persistLoop (if s4 = [] then bodyChunks else s4 :: bodyChunks) m
            (if code4 = strBytes "200 " then (ihd, itl) else (0, 0)).1 [] with
        | panic => rw [hpl] at hok; exact absurd hok (by simp)
        | err e2 => rw [hpl] at hok; exact absurd hok (by simp)
        | ok pr2 =>
          rw [hpl] at hok
          simp only [Hout.bind_ok] at hok
          split at hok
          · split at hok
            · exact absurd hok (by simp)
            · injection hok with h1
              have hR := congrArg Prod.fst h1
              simp only at hR
              rw [← hR]
              simp [HttpResponseParts.is_ok]
          · exact absurd hok (by simp)

/-- Witness for the `is_ok` characterization: the canonical `200 OK`
response parses with `is_ok = true`. -/
theorem is_ok_iff_status_exactly_200OK_witness :
    (strBytes "200 ").length = 4
      ∧ ∃ resp fbytes,
        from_stream
            (strBytes "HTTP/1.1 " ++ (strBytes "200 " ++ strBytes "OK\r\ncontent-length: 2\r\n\r\n"))
            [[104, 105]] none 0 0 = .ok (resp, fbytes)
        ∧ (resp.is_ok = true ↔ strBytes "200 " ++ strBytes "OK" = strBytes "200 OK") := by
  constructor
  · decide
  · have hok : from_stream
        (strBytes "HTTP/1.1 " ++ (strBytes "200 " ++ strBytes "OK\r\ncontent-length: 2\r\n\r\n"))
        [[104, 105]] none 0 0 =
        .ok ((⟨strBytes "HTTP/1.1", strBytes "200 " ++ strBytes "OK",
          strBytes "content-length: 2\r\n\r\n", [104, 105], none⟩ : HttpResponseParts), []) := by
      decide
    refine ⟨_, _, hok, ?_⟩
    exact is_ok_iff_status_exactly_200OK (strBytes "200 ")
      (strBytes "OK\r\ncontent-length: 2\r\n\r\n") (strBytes "OK")
      (strBytes "content-length: 2\r\n\r\n") [[104, 105]] none 0 0 _ _
      (by decide) (by decide) hok

/-- C2 (counterexample): a response whose status line is
`HTTP/1.1 200 Fine` parses successfully, its status starts with `200`,
yet `is_ok()` is `false` — `is_ok` compares the whole status against the
exact bytes `"200 OK"`, not the status-code prefix. -/
theorem is_ok_false_on_200_other_reason :
    (from_stream (strBytes "HTTP/1.1 200 Fine\r\ncontent-length: 2\r\n\r\n")
        [[104, 105]] none 0 0).holds
      (fun r => r.1.status.take 3 == strBytes "200" && !r.1.is_ok) = true := by
  decide

/-- C6 (counterexample): `get_connection` keeps trailing spaces (the
right-trim loop starts on the CR byte and never runs), and the
all-lowercase spellings of `Sec-WebSocket-Key` / `Sec-WebSocket-Accept`
are not accepted (the source's alternate literals are
`sec-webSocket-key:` / `sec-webSocket-accept:`), making the lookup scan
run past the buffer end (an out-of-bounds panic). -/
theorem header_lookup_counterexample :
    get_connection (strBytes "Connection: close \r\n") = .ok (strBytes "close ")
      ∧ strBytes "close " ≠ strBytes "close"
      ∧ get_ws_accept (strBytes "sec-websocket-accept: abc\r\n") = .panic
      ∧ get_ws_key (strBytes "sec-websocket-key: abc\r\n") = .panic := by
  decide

/-- `hdrFindName` succeeds immediately when the buffer starts with one of
the two (equal-length) name literals, returning the remainder of the
buffer. -/
theorem hdrFindName_at_head (hInit hInitAlt : Nat) (hName hNameAlt N rest : List Nat)
    (hN : N = hName ∨ N = hNameAlt)
    (hlen : hNameAlt.length = hName.length)
    (hhead : N.head? = some hInit ∨ N.head? = some hInitAlt) :
    hdrFindName hInit hInitAlt hName hNameAlt (N ++ rest) = .ok rest := by
  have hNlen : N.length = hName.length := by
    cases hN with
    | inl h => rw [h]
    | inr h => rw [h, hlen]
  cases N with
  | nil => simp at hhead
  | cons b N' =>
    have hb : b = hInit ∨ b = hInitAlt := by
      simp only [List.head?_cons] at hhead
      cases hhead with
      | inl h => exact Or.inl (by injection h)
      | inr h => exact Or.inr (by injection h)
    have hlt : ¬ (b :: (N' ++ rest)).length < hName.length := by
      simp only [List.length_cons, List.length_append]
      simp only [List.length_cons] at hNlen
      omega
    have htake : (b :: (N' ++ rest)).take hName.length = b :: N' := by
      rw [← hNlen, show b :: (N' ++ rest) = (b :: N') ++ rest from rfl]
      exact List.take_left' rfl
    have hdrop : (b :: (N' ++ rest)).drop hName.length = rest := by
      rw [← hNlen, show b :: (N' ++ rest) = (b :: N') ++ rest from rfl]
      exact List.drop_left' rfl
    rw [List.cons_append, hdrFindName, if_pos hb, if_neg hlt, htake, if_pos hN, hdrop]

/-- `hdrSkipSpaces` drops a block of leading spaces. -/
theorem hdrSkipSpaces_replicate (k : Nat) (l : List Nat) :
    hdrSkipSpaces (List.replicate k 32 ++ l) = hdrSkipSpaces l := by
  induction k with
  | zero => rw [List.replicate_zero, List.nil_append]
  | succ k ih =>
    rw [List.replicate_succ, List.cons_append, hdrSkipSpaces, if_pos rfl, ih]

/-- `hdrSkipSpaces` stops at the first non-space byte. -/
theorem hdrSkipSpaces_stop (b : Nat) (l : List Nat) (h : ¬ b = 32) :
    hdrSkipSpaces (b :: l) = .ok (b :: l) := by
  rw [hdrSkipSpaces, if_neg h]

/-- `hdrScanValue` accumulates the CR-free value bytes and right-trims
from the CR index. -/
theorem hdrScanValue_append (v : List Nat) :
    13 ∉ v → ∀ acc, hdrScanValue acc (v ++ [13, 10]) =
      .ok ((acc ++ v ++ [13]).take (rtrimFrom (acc ++ v ++ [13]) (acc ++ v).length)) := by
  induction v with
  | nil =>
    intro _ acc
    simp only [List.nil_append, List.append_nil]
    rfl
  | cons b v' ih =>
    intro h13 acc
    have hb : ¬ b = 13 := fun h => h13 (by rw [h]; exact List.mem_cons_self 13 v')
    have hstep : hdrScanValue acc ((b :: v') ++ [13, 10]) =
        hdrScanValue (acc ++ [b]) (v' ++ [13, 10]) := by
      rw [List.cons_append, hdrScanValue.eq_def]
      simp [hb]
    rw [hstep, ih (fun hm => h13 (List.mem_cons_of_mem b hm)) (acc ++ [b])]
    simp [List.append_assoc, List.cons_append, List.singleton_append]

/-- Right-trimming from the CR index keeps every byte: the byte looked at
first is the CR itself, which is never a space, so the loop never moves
and trailing spaces survive. -/
theorem rtrimFrom_at_cr (l : List Nat) (hl : ¬ l = []) :
    rtrimFrom (l ++ [13]) l.length = l.length := by
  have hcr : (l ++ [13]).getD l.length 0 = 13 := by
    rw [List.getD_eq_getElem?_getD, List.getElem?_append_right (Nat.le_refl l.length)]
    simp
  cases hlen : l.length with
  | zero => exact absurd (List.length_eq_zero.mp hlen) hl
  | succ i =>
    rw [hlen] at hcr
    rw [rtrimFrom, hcr]
    simp

/-- On a value terminated by CRLF with no interior CR, `hdrScanValue`
returns the value bytes verbatim, trailing spaces included. -/
theorem hdrScanValue_crlf (v : List Nat) (hv : ¬ v = []) (h13 : 13 ∉ v) :
    hdrScanValue [] (v ++ [13, 10]) = .ok v := by
  rw [hdrScanValue_append v h13 []]
  simp only [List.nil_append]
  rw [rtrimFrom_at_cr v hv]
  have ht : (v ++ [13]).take v.length = v := List.take_left' rfl
  rw [ht]

/-- A complete finder run on a well-formed header line
`NAME SP^k value CR LF`: the name matches at the head (either spelling),
the leading spaces are skipped, and the value comes back with trailing
spaces retained. -/
theorem getHeaderValue_spec (hInit hInitAlt : Nat) (hName hNameAlt N v : List Nat)
    (k : Nat)
    (hN : N = hName ∨ N = hNameAlt)
    (hlen : hNameAlt.length = hName.length)
    (hhead : N.head? = some hInit ∨ N.head? = some hInitAlt)
    (hv : ¬ v = []) (h32 : ¬ v.head? = some 32) (h13 : 13 ∉ v) :
    getHeaderValue hInit hInitAlt hName hNameAlt
      (N ++ (List.replicate k 32 ++ (v ++ [13, 10]))) = .ok v := by
  unfold getHeaderValue
  rw [hdrFindName_at_head hInit hInitAlt hName hNameAlt N _ hN hlen hhead]
  rw [Hout.bind_ok]
  rw [hdrSkipSpaces_replicate]
  cases v with
  | nil => exact absurd rfl hv
  | cons b v' =>
    have hb : ¬ b = 32 := fun h => h32 (by rw [h]; rfl)
    rw [List.cons_append, hdrSkipSpaces_stop b _ hb, Hout.bind_ok]
    rw [← List.cons_append, hdrScanValue_crlf _ hv h13, Hout.bind_ok]
    rw [if_pos hv]


/-- C6 (amended): each dedicated header lookup succeeds on the canonical
capitalization of its name; the all-lowercase spelling is also accepted
for `Content-Length`, `Connection`, `Upgrade`, `Host` and
`Sec-WebSocket-Version`, but the alternate literals for
`Sec-WebSocket-Key` and `Sec-WebSocket-Accept` are the mixed-case
`sec-webSocket-key:` / `sec-webSocket-accept:` (src/httpp.rs lines 357 and
829), and the all-lowercase spellings of those two panic; the returned
value has its leading spaces skipped but its trailing spaces retained
(the value bytes come back verbatim). -/
theorem header_lookup_amended (v : List Nat) (k n : Nat)
    (hv : ¬ v = []) (h32 : ¬ v.head? = some 32) (h13 : 13 ∉ v)
    (hn : parseUsize (trimBytes v) = some n) :
    get_content_length (strBytes "Content-Length:" ++ (List.replicate k 32 ++ (v ++ [13, 10]))) = .ok n
      ∧ get_content_length (strBytes "content-length:" ++ (List.replicate k 32 ++ (v ++ [13, 10]))) = .ok n
      ∧ get_connection (strBytes "Connection:" ++ (List.replicate k 32 ++ (v ++ [13, 10]))) = .ok v
      ∧ get_connection (strBytes "connection:" ++ (List.replicate k 32 ++ (v ++ [13, 10]))) = .ok v
      ∧ get_upgrade (strBytes "Upgrade:" ++ (List.replicate k 32 ++ (v ++ [13, 10]))) = .ok v
      ∧ get_upgrade (strBytes "upgrade:" ++ (List.replicate k 32 ++ (v ++ [13, 10]))) = .ok v
      ∧ get_host (strBytes "Host:" ++ (List.replicate k 32 ++ (v ++ [13, 10]))) = .ok v
      ∧ get_host (strBytes "host:" ++ (List.replicate k 32 ++ (v ++ [13, 10]))) = .ok v
      ∧ get_ws_ver (strBytes "Sec-WebSocket-Version:" ++ (List.replicate k 32 ++ (v ++ [13, 10]))) = .ok v
      ∧ get_ws_ver (strBytes "sec-websocket-version:" ++ (List.replicate k 32 ++ (v ++ [13, 10]))) = .ok v
      ∧ get_ws_key (strBytes "Sec-WebSocket-Key:" ++ (List.replicate k 32 ++ (v ++ [13, 10]))) = .ok v
      ∧ get_ws_key (strBytes "sec-webSocket-key:" ++ (List.replicate k 32 ++ (v ++ [13, 10]))) = .ok v
      ∧ get_ws_accept (strBytes "Sec-WebSocket-Accept:" ++ (List.replicate k 32 ++ (v ++ [13, 10]))) = .ok v
      ∧ get_ws_accept (strBytes "sec-webSocket-accept:" ++ (List.replicate k 32 ++ (v ++ [13, 10]))) = .ok v
      ∧ get_ws_key (strBytes "sec-websocket-key: xyz" ++ [13, 10]) = .panic
      ∧ get_ws_accept (strBytes "sec-websocket-accept: xyz" ++ [13, 10]) = .panic := by
  refine ⟨?_, ?_, ?_, ?_, ?_, ?_, ?_, ?_, ?_, ?_, ?_, ?_, ?_, ?_, by decide, by decide⟩
  · unfold get_content_length
    rw [getHeaderValue_spec 67 99 (strBytes "Content-Length:") (strBytes "content-length:") (strBytes "Content-Length:") v k (Or.inl rfl) (by decide) (Or.inl (by decide)) hv h32 h13]
    simp only [Hout.bind_ok, hn]
  · unfold get_content_length
    rw [getHeaderValue_spec 67 99 (strBytes "Content-Length:") (strBytes "content-length:") (strBytes "content-length:") v k (Or.inr rfl) (by decide) (Or.inr (by decide)) hv h32 h13]
    simp only [Hout.bind_ok, hn]
  · exact getHeaderValue_spec 67 99 (strBytes "Connection:") (strBytes "connection:") (strBytes "Connection:") v k (Or.inl rfl) (by decide) (Or.inl (by decide)) hv h32 h13
  · exact getHeaderValue_spec 67 99 (strBytes "Connection:") (strBytes "connection:") (strBytes "connection:") v k (Or.inr rfl) (by decide) (Or.inr (by decide)) hv h32 h13
  · exact getHeaderValue_spec 85 117 (strBytes "Upgrade:") (strBytes "upgrade:") (strBytes "Upgrade:") v k (Or.inl rfl) (by decide) (Or.inl (by decide)) hv h32 h13
  · exact getHeaderValue_spec 85 117 (strBytes "Upgrade:") (strBytes "upgrade:") (strBytes "upgrade:") v k (Or.inr rfl) (by decide) (Or.inr (by decide)) hv h32 h13
  · exact getHeaderValue_spec 72 104 (strBytes "Host:") (strBytes "host:") (strBytes "Host:") v k (Or.inl rfl) (by decide) (Or.inl (by decide)) hv h32 h13
  · exact getHeaderValue_spec 72 104 (strBytes "Host:") (strBytes "host:") (strBytes "host:") v k (Or.inr rfl) (by decide) (Or.inr (by decide)) hv h32 h13
  · exact getHeaderValue_spec 83 115 (strBytes "Sec-WebSocket-Version:") (strBytes "sec-websocket-version:") (strBytes "Sec-WebSocket-Version:") v k (Or.inl rfl) (by decide) (Or.inl (by decide)) hv h32 h13
  · exact getHeaderValue_spec 83 115 (strBytes "Sec-WebSocket-Version:") (strBytes "sec-websocket-version:") (strBytes "sec-websocket-version:") v k (Or.inr rfl) (by decide) (Or.inr (by decide)) hv h32 h13
  · exact getHeaderValue_spec 83 115 (strBytes "Sec-WebSocket-Key:") (strBytes "sec-webSocket-key:") (strBytes "Sec-WebSocket-Key:") v k (Or.inl rfl) (by decide) (Or.inl (by decide)) hv h32 h13
  · exact getHeaderValue_spec 83 115 (strBytes "Sec-WebSocket-Key:") (strBytes "sec-webSocket-key:") (strBytes "sec-webSocket-key:") v k (Or.inr rfl) (by decide) (Or.inr (by decide)) hv h32 h13
  · exact getHeaderValue_spec 83 115 (strBytes "Sec-WebSocket-Accept:") (strBytes "sec-webSocket-accept:") (strBytes "Sec-WebSocket-Accept:") v k (Or.inl rfl) (by decide) (Or.inl (by decide)) hv h32 h13
  · exact getHeaderValue_spec 83 115 (strBytes "Sec-WebSocket-Accept:") (strBytes "sec-webSocket-accept:") (strBytes "sec-webSocket-accept:") v k (Or.inr rfl) (by decide) (Or.inr (by decide)) hv h32 h13

/-- Witness for the amended header-lookup law at the value `"42 "` (one
leading space skipped, the trailing space retained). -/
theorem header_lookup_amended_witness :
    get_content_length (strBytes "Content-Length:"
        ++ (List.replicate 1 32 ++ (strBytes "42 " ++ [13, 10]))) = .ok 42
      ∧ get_connection (strBytes "connection:"
          ++ (List.replicate 1 32 ++ (strBytes "42 " ++ [13, 10]))) = .ok (strBytes "42 ") := by
  have h := header_lookup_amended (strBytes "42 ") 1 42 (by decide) (by decide)
    (by decide) (by decide)
  exact ⟨h.1, h.2.2.2.1⟩

end Wdc
